import Mathlib

/-
Verification of the database-resilience layer and upload helpers of the
ats-checker repository (src/database/db.py, src/app/atsChecker/atsChecker.py),
as a shallow embedding in Lean. Wall-clock time is modelled as an explicit
natural number of seconds threaded through the state; `time.sleep(d)` advances
it by `d` and records `d` in a ghost trace of sleep durations. Exceptions are
modelled by `Except`: the classes caught by the retry decorator
(OperationalError, TimeoutError, ConnectionError) are `transient`, every other
exception raised by an underlying action is `nonTransient`, and the plain
`Exception("Circuit breaker is open...")` raised by the guards is
`circuitOpen`.
-/

deriving instance DecidableEq for Except

namespace ATS

/-- Error classes an underlying database action can raise
(transient = OperationalError / TimeoutError / ConnectionError). -/
inductive ActErr where
  | transient
  | nonTransient
deriving DecidableEq

/-- Error classes that can escape a guarded operation. -/
inductive DbError where
  | transient
  | nonTransient
  | circuitOpen
deriving DecidableEq

def ActErr.toDb : ActErr → DbError
  | .transient => .transient
  | .nonTransient => .nonTransient

/-- Matches the `except (OperationalError, TimeoutError, ConnectionError)`
clause of retry_with_backoff (db.py line 40): only these are retried. -/
def DbError.isTransient : DbError → Bool
  | .transient => true
  | _ => false

/-- CircuitBreaker state, db.py lines 61-66. `reset_time = none` models
`self.reset_time = None`; time is in seconds. -/
structure CircuitBreaker where
  max_failures : Nat
  reset_interval : Nat
  failure_count : Nat
  reset_time : Option Nat
deriving DecidableEq

/-- CircuitBreaker.is_open, db.py lines 68-76. Returns the boolean result and
the (possibly lazily reset) breaker state. -/
def CircuitBreaker.is_open (cb : CircuitBreaker) (now : Nat) : Bool × CircuitBreaker :=
  match cb.reset_time with
  | some t =>
      if now < t then (true, cb)
      else (false, { cb with reset_time := none, failure_count := 0 })
  | none => (false, cb)

/-- CircuitBreaker.record_success, db.py lines 78-81. -/
def CircuitBreaker.record_success (cb : CircuitBreaker) : CircuitBreaker :=
  { cb with failure_count := 0, reset_time := none }

/-- CircuitBreaker.record_failure, db.py lines 83-90. Returns the boolean the
method returns together with the updated state. -/
def CircuitBreaker.record_failure (cb : CircuitBreaker) (now : Nat) : Bool × CircuitBreaker :=
  let fc := cb.failure_count + 1
  if cb.max_failures ≤ fc then
    (true, { cb with failure_count := fc, reset_time := some (now + cb.reset_interval) })
  else
    (false, { cb with failure_count := fc })

/-- The process-wide breaker instance `circuit_breaker = CircuitBreaker()`
(db.py line 94) with defaults max_failures=5, reset_interval=300, in its
initial state. -/
def circuit_breaker : CircuitBreaker :=
  { max_failures := 5, reset_interval := 300, failure_count := 0, reset_time := none }

/-- Mutable world visible to the resilience layer: the breaker, the clock, and
a ghost trace of sleep durations taken so far. -/
structure DbState where
  cb : CircuitBreaker
  now : Nat
  sleeps : List Nat
deriving DecidableEq

/-- Loop body of the wrapper in retry_with_backoff (db.py lines 35-53), as
fuel-indexed recursion. `func` receives the invocation index (0-based) and the
current state. The invariant `attempts + fuel = retries + 1` holds at every
call, so the fuel-exhausted branch is unreachable: a transient failure at
`attempts + 1 > retries` returns before recursing, exactly like the
`if attempts > retries: raise` in the source. -/
def retryAux {α : Type} (retries backoff : Nat)
    (func : Nat → DbState → Except DbError α × DbState) :
    Nat → Nat → Nat → DbState → Except DbError α × DbState
  | 0, _, _, st => (Except.error DbError.transient, st)
  | fuel + 1, i, attempts, st =>
    match func i st with
    | (Except.ok a, st1) => (Except.ok a, st1)
    | (Except.error e, st1) =>
      if e.isTransient then
        if retries < attempts + 1 then
          (Except.error e, st1)
        else
          let d := backoff * 2 ^ attempts
          retryAux retries backoff func fuel (i + 1) (attempts + 1)
            { st1 with now := st1.now + d, sleeps := st1.sleeps ++ [d] }
      else
        (Except.error e, st1)

/-- retry_with_backoff(retries, backoff_in_seconds) applied to `func`
(db.py lines 24-57): run the loop starting at attempts = 0. -/
def retry_with_backoff {α : Type} (retries backoff : Nat)
    (func : Nat → DbState → Except DbError α × DbState) (st : DbState) :
    Except DbError α × DbState :=
  retryAux retries backoff func (retries + 1) 0 0 st

/-- One invocation of the body of create_db_engine (db.py lines 98-126).
`act i` is the outcome of the i-th attempt of the underlying work
(create_engine + the `SELECT 1` probe); the guard checks the breaker first,
and the `except Exception` clause records every failure class before
re-raising. -/
def createEngineBody (act : Nat → Except ActErr Unit) (i : Nat) (st : DbState) :
    Except DbError Unit × DbState :=
  let r := st.cb.is_open st.now
  if r.1 then
    (Except.error DbError.circuitOpen, { st with cb := r.2 })
  else
    match act i with
    | Except.ok _ => (Except.ok (), { st with cb := r.2.record_success })
    | Except.error e => (Except.error e.toDb, { st with cb := (r.2.record_failure st.now).2 })

/-- create_db_engine, decorated with retry_with_backoff(retries=5,
backoff_in_seconds=1) (db.py line 97). -/
def create_db_engine (act : Nat → Except ActErr Unit) (st : DbState) :
    Except DbError Unit × DbState :=
  retry_with_backoff 5 1 (createEngineBody act) st

/-- One invocation of the body of init_db (db.py lines 137-151): same guard
and breaker reporting as create_db_engine, around SQLModel schema creation. -/
def initDbBody (act : Nat → Except ActErr Unit) (i : Nat) (st : DbState) :
    Except DbError Unit × DbState :=
  let r := st.cb.is_open st.now
  if r.1 then
    (Except.error DbError.circuitOpen, { st with cb := r.2 })
  else
    match act i with
    | Except.ok _ => (Except.ok (), { st with cb := r.2.record_success })
    | Except.error e => (Except.error e.toDb, { st with cb := (r.2.record_failure st.now).2 })

/-- init_db, decorated with retry_with_backoff(retries=3) (db.py line 136);
backoff_in_seconds keeps its default of 1. -/
def init_db (act : Nat → Except ActErr Unit) (st : DbState) :
    Except DbError Unit × DbState :=
  retry_with_backoff 3 1 (initDbBody act) st

/-- Ghost observation of one get_session scope: how many times each resource
action ran and whether a session object was ever created. -/
structure SessionTrace where
  sessionCreated : Bool
  commits : Nat
  rollbacks : Nat
  closes : Nat
  successReports : Nat
  failureReports : Nat
deriving DecidableEq

/-- The inner function _get_session_with_retry of get_session (db.py lines
163-165): one `Session(engine)` construction attempt, which touches neither
the breaker nor the clock; `mk i` is the outcome of the i-th attempt. -/
def mkSessionOp (mk : Nat → Except ActErr Unit) :
    Nat → DbState → Except DbError Unit × DbState :=
  fun i s =>
    match mk i with
    | Except.ok _ => (Except.ok (), s)
    | Except.error e => (Except.error e.toDb, s)

/-- get_session (db.py lines 154-181). `mk i` is the outcome of the i-th
`Session(engine)` construction attempt (retried with retries=3 and no breaker
reporting per attempt), `body` the outcome of the caller's scope, `commit` the
outcome of `session.commit()` (only reached when the body succeeded).
Rollback and close are modelled as infallible, as the claims assume. The
branches mirror the source: except Exception → rollback if a session exists,
record_failure, re-raise; finally → close if a session exists. -/
def get_session (mk : Nat → Except ActErr Unit) (body commit : Except ActErr Unit)
    (st : DbState) : Except DbError Unit × DbState × SessionTrace :=
  let r := st.cb.is_open st.now
  if r.1 then
    (Except.error DbError.circuitOpen, { st with cb := r.2 },
      ⟨false, 0, 0, 0, 0, 0⟩)
  else
    let st1 : DbState := { st with cb := r.2 }
    match retry_with_backoff 3 1 (mkSessionOp mk) st1 with
    | (Except.error e, st2) =>
        (Except.error e, { st2 with cb := (st2.cb.record_failure st2.now).2 },
          ⟨false, 0, 0, 0, 0, 1⟩)
    | (Except.ok _, st2) =>
        match body with
        | Except.error e =>
            (Except.error e.toDb, { st2 with cb := (st2.cb.record_failure st2.now).2 },
              ⟨true, 0, 1, 1, 0, 1⟩)
        | Except.ok _ =>
            match commit with
            | Except.ok _ =>
                (Except.ok (), { st2 with cb := st2.cb.record_success },
                  ⟨true, 1, 0, 1, 1, 0⟩)
            | Except.error e =>
                (Except.error e.toDb, { st2 with cb := (st2.cb.record_failure st2.now).2 },
                  ⟨true, 0, 1, 1, 0, 1⟩)

/-- Underlying action that raises a transient error on the first `n`
invocations and succeeds from invocation `n+1` on. -/
def failN (n : Nat) : Nat → Except ActErr Unit :=
  fun i => if i < n then Except.error ActErr.transient else Except.ok ()

/-- Pure retried operation (no breaker interaction) failing transiently on the
first `n` invocations, used to observe the backoff schedule in isolation. -/
def pureFails (n : Nat) : Nat → DbState → Except DbError Unit × DbState :=
  fun i st => (if i < n then Except.error DbError.transient else Except.ok (), st)

/-- Pure retried operation that fails transiently on every invocation. -/
def pureAlwaysFails : Nat → DbState → Except DbError Unit × DbState :=
  fun _ st => (Except.error DbError.transient, st)

/-- Sleep durations taken by the k-th through (k+m-1)-th backoffs: the loop
sleeps `backoff_in_seconds * 2 ** (attempts - 1)` after incrementing
`attempts`, so starting from `attempts` prior failures the next `m` sleeps
are `backoff * 2 ^ attempts, backoff * 2 ^ (attempts+1), ...`. -/
def backoffList (backoff : Nat) : Nat → Nat → List Nat
  | _, 0 => []
  | attempts, m + 1 => backoff * 2 ^ attempts :: backoffList backoff (attempts + 1) m

/-- Value found under the "ats_score" key of the model's JSON reply. The
source applies `int(float(str(x)))`: a JSON number, or a string that parses
as a float, is `numeric` (floats modelled as exact rationals); any other
string raises ValueError in `float` and is `nonNumeric`. -/
inductive ScoreVal where
  | numeric (q : ℚ)
  | nonNumeric (s : String)
deriving DecidableEq

/-- Result of `float(str(x))` on an ats_score value: its numeric reading, or
none when the conversion raises. -/
def ScoreVal.toNum : ScoreVal → Option ℚ
  | .numeric q => some q
  | .nonNumeric _ => none

/-- Shape of the JSON object parsed out of the API reply's message content,
restricted to what parse_api_response inspects: the ats_score value (none
when the key is absent) and presence of the feedback / improvements keys. -/
structure ApiContent where
  ats_score : Option ScoreVal
  has_feedback : Bool
  has_improvements : Bool
deriving DecidableEq

/-- Truncation toward zero, the behaviour of Python's `int()` on a float. -/
def truncToInt (q : ℚ) : ℤ := if q < 0 then ⌈q⌉ else ⌊q⌋

/-- The clamp `max(0, min(100, int(float(str(x)))))` of atsChecker.py
lines 156-158. -/
def clampScore (q : ℚ) : ℤ := max 0 (min 100 (truncToInt q))

/-- ATSFunctions.parse_api_response, atsChecker.py lines 144-162, restricted
to the ats_score field of the returned dictionary (feedback and improvements
pass through unmodified). Checks the three required keys first, then converts
and clamps the score; every raised exception becomes `Except.error`. -/
def parse_api_response (c : ApiContent) : Except String ℤ :=
  if c.ats_score.isSome && c.has_feedback && c.has_improvements then
    match c.ats_score with
    | some v =>
        match v.toNum with
        | some q => Except.ok (clampScore q)
        | none => Except.error "Invalid API response format: could not convert to float"
    | none => Except.error "Invalid API response format: Missing required fields in API response"
  else
    Except.error "Invalid API response format: Missing required fields in API response"

/-- Extensions accepted by validate_file_extension, atsChecker.py line 35. -/
def allowedExtensions : List String := ["pdf", "doc", "docx"]

/-- Python str.split(".") over the character list of a string: the maximal
runs between dots, empty segments included; the result always has at least
one segment, so taking the last element is total. -/
def splitDot : List Char → List (List Char)
  | [] => [[]]
  | c :: cs =>
    match splitDot cs with
    | [] => [[]]
    | seg :: rest => if c = '.' then [] :: seg :: rest else (c :: seg) :: rest

/-- The expression `filename.split(".")[-1].lower()` of atsChecker.py
line 34 (str.lower modelled character-wise, which agrees with Python on
ASCII filenames). -/
def extOf (filename : String) : String :=
  String.mk (((splitDot filename.data).getLastD []).map Char.toLower)

/-- ATSFunctions.validate_file_extension, atsChecker.py lines 32-40. Errors
carry the HTTP status code. -/
def validate_file_extension (filename : String) : Except Nat String :=
  let ext := extOf filename
  if ext ∉ allowedExtensions then Except.error 400 else Except.ok ext

/-- ATSFunctions.extract_text_from_file, atsChecker.py lines 67-74.
`pdfResult` stands for the outcome of extract_text_from_pdf, reached only on
the "pdf" branch; every other extension raises HTTP 400. -/
def extract_text_from_file (pdfResult : Except Nat String) (ext : String) :
    Except Nat String :=
  if ext = "pdf" then pdfResult else Except.error 400

/-- Prefix of ATSFunctions.upload_resume, atsChecker.py lines 77-85:
validate the extension, then extract text; a failure in either step
propagates and aborts the upload before any storage happens. -/
def upload_pipeline (pdfResult : Except Nat String) (filename : String) :
    Except Nat String :=
  match validate_file_extension filename with
  | Except.error c => Except.error c
  | Except.ok ext => extract_text_from_file pdfResult ext

/-- Helper: when the first invocation inside the retry loop raises a
non-transient error, the loop returns it at once, with the state the
invocation left behind. -/
theorem retryAux_nontransient {α : Type} (retries backoff fuel i attempts : Nat)
    (func : Nat → DbState → Except DbError α × DbState) (st st1 : DbState) (e : DbError)
    (hfe : func i st = (Except.error e, st1)) (hnt : e.isTransient = false) :
    retryAux retries backoff func (fuel + 1) i attempts st = (Except.error e, st1) := by
  unfold retryAux
  rw [hfe]
  simp [hnt]

/-- Helper: a run of the retry loop over a pure operation that fails
transiently up to index n and then succeeds ends in success, sleeping the
exponential-backoff schedule along the way. -/
theorem retryAux_pureFails_run (retries backoff n : Nat) :
    ∀ (m fuel i attempts : Nat) (st : DbState), i + m = n → attempts + m ≤ retries →
      m < fuel →
      retryAux retries backoff (pureFails n) fuel i attempts st =
        (Except.ok (),
          ⟨st.cb, st.now + (backoffList backoff attempts m).sum,
            st.sleeps ++ backoffList backoff attempts m⟩) := by
  intro m
  induction m with
  | zero =>
    intro fuel i attempts st hi ha hf
    obtain ⟨f, rfl⟩ : ∃ f, fuel = f + 1 := ⟨fuel - 1, by omega⟩
    have hin : ¬ i < n := by omega
    unfold retryAux pureFails
    simp [hin, backoffList]
  | succ m ih =>
    intro fuel i attempts st hi ha hf
    obtain ⟨f, rfl⟩ : ∃ f, fuel = f + 1 := ⟨fuel - 1, by omega⟩
    have hin : i < n := by omega
    have hra : ¬ retries < attempts + 1 := by omega
    have hcall : pureFails n i st = (Except.error DbError.transient, st) := by
      simp [pureFails, hin]
    unfold retryAux
    rw [hcall]
    simp only [DbError.isTransient, hra, ite_true, ite_false, if_neg, not_false_eq_true]
    rw [ih f (i + 1) (attempts + 1) _ (by omega) (by omega) (by omega)]
    simp [backoffList, Nat.add_assoc]

/-- Helper: a run of the retry loop over a pure operation that always fails
transiently exhausts its retries, sleeping the full backoff schedule and
re-raising the transient error. -/
theorem retryAux_alwaysFails (retries backoff : Nat) :
    ∀ (fuel i attempts : Nat) (st : DbState), attempts + fuel = retries + 1 →
      retryAux retries backoff pureAlwaysFails fuel i attempts st =
        (Except.error DbError.transient,
          ⟨st.cb, st.now + (backoffList backoff attempts (fuel - 1)).sum,
            st.sleeps ++ backoffList backoff attempts (fuel - 1)⟩) := by
  intro fuel
  induction fuel with
  | zero =>
    intro i attempts st h
    unfold retryAux
    simp [backoffList]
  | succ f ihf =>
    intro i attempts st h
    by_cases hstop : retries < attempts + 1
    · have hf0 : f = 0 := by omega
      subst hf0
      unfold retryAux pureAlwaysFails
      simp [hstop, backoffList, DbError.isTransient]
    · obtain ⟨g, rfl⟩ : ∃ g, f = g + 1 := ⟨f - 1, by omega⟩
      have hcall : pureAlwaysFails i st = (Except.error DbError.transient, st) := rfl
      unfold retryAux
      rw [hcall]
      simp only [DbError.isTransient, hstop, ite_true, ite_false, if_neg,
        not_false_eq_true]
      rw [ihf (i + 1) (attempts + 1) _ (by omega)]
      simp [backoffList, Nat.add_assoc]

/-- Helper: the backoff schedule starting after `a` prior failures lists
`backoff * 2 ^ (a + j)` for j = 0..m-1. -/
theorem backoffList_eq_range (backoff : Nat) :
    ∀ (m a : Nat),
      backoffList backoff a m = (List.range m).map (fun j => backoff * 2 ^ (a + j)) := by
  intro m
  induction m with
  | zero => intro a; simp [backoffList]
  | succ m ih =>
    intro a
    rw [List.range_succ_eq_map, List.map_cons, List.map_map]
    show backoff * 2 ^ a :: backoffList backoff (a + 1) m = _
    rw [ih (a + 1)]
    have hfun : (fun j => backoff * 2 ^ (a + 1 + j)) =
        ((fun j => backoff * 2 ^ (a + j)) ∘ Nat.succ) := by
      funext j
      simp only [Function.comp]
      congr 2
      omega
    rw [hfun]
    simp

/-- C6: calling is_open while reset_time is set returns true and leaves the
breaker unchanged when the clock is strictly before the expiry instant, and
clears reset_time, resets failure_count to 0 and returns false when the
clock is at or past it. -/
theorem C6_is_open_lazy_transition (cb : CircuitBreaker) (t now : Nat)
    (h : cb.reset_time = some t) :
    (now < t → cb.is_open now = (true, cb)) ∧
    (t ≤ now →
      cb.is_open now = (false, { cb with reset_time := none, failure_count := 0 })) := by
  constructor
  · intro hlt
    simp [CircuitBreaker.is_open, h, hlt]
  · intro hle
    simp [CircuitBreaker.is_open, h, Nat.not_lt.mpr hle]

theorem C6_witness :
    CircuitBreaker.is_open ⟨5, 300, 2, some 10⟩ 3 = (true, ⟨5, 300, 2, some 10⟩) ∧
    CircuitBreaker.is_open ⟨5, 300, 2, some 10⟩ 12 = (false, ⟨5, 300, 0, none⟩) :=
  ⟨(C6_is_open_lazy_transition ⟨5, 300, 2, some 10⟩ 10 3 rfl).1 (by decide),
   (C6_is_open_lazy_transition ⟨5, 300, 2, some 10⟩ 10 12 rfl).2 (by decide)⟩

/-- C8: the only mutations of failure_count are an increment by exactly 1 in
record_failure, a reset to 0 in record_success, and in is_open a reset to 0
exactly when the cooldown has elapsed (otherwise is_open preserves it); in
particular the count never depends on how far apart failures are reported. -/
theorem C8_failure_count_mutations (cb : CircuitBreaker) (now : Nat) :
    ((cb.record_failure now).2).failure_count = cb.failure_count + 1 ∧
    cb.record_success.failure_count = 0 ∧
    ((cb.is_open now).2).failure_count =
      (match cb.reset_time with
       | some t => if now < t then cb.failure_count else 0
       | none => cb.failure_count) := by
  refine ⟨?_, rfl, ?_⟩
  · by_cases h : cb.max_failures ≤ cb.failure_count + 1 <;>
      simp [CircuitBreaker.record_failure, h]
  · rcases hr : cb.reset_time with _ | t
    · simp [CircuitBreaker.is_open, hr]
    · by_cases h : now < t <;> simp [CircuitBreaker.is_open, hr, h]

/-- C3 fails on the code: run create_db_engine against an action with 5
transient failures so the breaker trips at time 15 with reset_time = 315;
at time 31 the breaker is still open, yet a redundant record_failure moves
reset_time to 31 + 300 = 331 instead of leaving it at 315, because the
failure count stays at or above the threshold and the trip branch re-arms
the window. -/
theorem C3_counterexample :
    ((create_db_engine (failN 5) ⟨circuit_breaker, 0, []⟩).2.cb.is_open
        (create_db_engine (failN 5) ⟨circuit_breaker, 0, []⟩).2.now).1 = true ∧
    (create_db_engine (failN 5) ⟨circuit_breaker, 0, []⟩).2.cb.reset_time = some 315 ∧
    ((create_db_engine (failN 5) ⟨circuit_breaker, 0, []⟩).2.cb.record_failure
        (create_db_engine (failN 5) ⟨circuit_breaker, 0, []⟩).2.now).2.reset_time
      = some 331 ∧
    some (331 : Nat) ≠ some (315 : Nat) :=
  ⟨rfl, rfl, rfl, by decide⟩

/-- C3 amended: whenever a failure report finds failure_count + 1 still at or
above max_failures — true in every state reached by tripping the breaker,
since tripping does not reset the count — record_failure re-arms reset_time
to now + reset_interval, so redundant failure reports while open extend the
cooldown expiry instead of leaving it unchanged. -/
theorem C3_amended_refailure_rearms (cb : CircuitBreaker) (now : Nat)
    (h : cb.max_failures ≤ cb.failure_count + 1) :
    ((cb.record_failure now).2).reset_time = some (now + cb.reset_interval) := by
  simp [CircuitBreaker.record_failure, h]

theorem C3_amended_witness :
    ((CircuitBreaker.record_failure ⟨5, 300, 5, some 315⟩ 31).2).reset_time = some 331 :=
  C3_amended_refailure_rearms ⟨5, 300, 5, some 315⟩ 31 (by decide)

/-- C2 fails on the code: a non-transient error on the first invocation of
create_db_engine propagates immediately (no retry — the action would succeed
from invocation 2 on — and no backoff, the clock and sleep trace being
unchanged), but the breaker is modified: the `except Exception` handler has
incremented failure_count from 0 to 1, contradicting the claim that
failure_count is not modified by a non-transient failure. -/
theorem C2_counterexample :
    create_db_engine
        (fun i => if i = 0 then Except.error ActErr.nonTransient else Except.ok ())
        ⟨circuit_breaker, 0, []⟩ =
      (Except.error DbError.nonTransient, ⟨⟨5, 300, 1, none⟩, 0, []⟩) ∧
    (1 : Nat) ≠ 0 :=
  ⟨rfl, by decide⟩

/-- C2 amended: a non-transient error raised by the underlying action on the
first invocation propagates to the caller immediately — no retry (the action
would succeed on every later invocation) and no backoff wait (clock and
sleep trace unchanged) — but the breaker IS modified by that failure:
failure_count is incremented by 1, and reset_time is set to now +
reset_interval when the incremented count reaches max_failures; this holds
for engine creation, schema initialization and scoped-session use alike. -/
theorem C2_amended_nontransient_counted (fc t0 : Nat) :
    create_db_engine
        (fun i => if i = 0 then Except.error ActErr.nonTransient else Except.ok ())
        ⟨⟨5, 300, fc, none⟩, t0, []⟩ =
      (Except.error DbError.nonTransient,
        ⟨(CircuitBreaker.record_failure ⟨5, 300, fc, none⟩ t0).2, t0, []⟩) ∧
    init_db
        (fun i => if i = 0 then Except.error ActErr.nonTransient else Except.ok ())
        ⟨⟨5, 300, fc, none⟩, t0, []⟩ =
      (Except.error DbError.nonTransient,
        ⟨(CircuitBreaker.record_failure ⟨5, 300, fc, none⟩ t0).2, t0, []⟩) ∧
    get_session
        (fun i => if i = 0 then Except.error ActErr.nonTransient else Except.ok ())
        (Except.ok ()) (Except.ok ()) ⟨⟨5, 300, fc, none⟩, t0, []⟩ =
      (Except.error DbError.nonTransient,
        ⟨(CircuitBreaker.record_failure ⟨5, 300, fc, none⟩ t0).2, t0, []⟩,
        ⟨false, 0, 0, 0, 0, 1⟩) ∧
    ((CircuitBreaker.record_failure ⟨5, 300, fc, none⟩ t0).2).failure_count = fc + 1 ∧
    ((CircuitBreaker.record_failure ⟨5, 300, fc, none⟩ t0).2).reset_time =
      (if 5 ≤ fc + 1 then some (t0 + 300) else none) := by
  refine ⟨rfl, rfl, rfl, ?_, ?_⟩ <;>
    by_cases h : 5 ≤ fc + 1 <;> simp [CircuitBreaker.record_failure, h]

/-- C1 fails on the code: for engine creation max_retries = 5 equals the
breaker threshold max_failures = 5, so with a fresh breaker an action that
fails transiently on exactly the first 5 invocations and would succeed on
invocation 6 does not make the wrapped call succeed: the 5th failure trips
the breaker at time 15 (reset_time = 315), the 6th invocation at time 31 is
rejected with the circuit-open error, and failure_count ends at 5, not 0. -/
theorem C1_counterexample :
    (5 : Nat) ≤ 5 ∧
    create_db_engine (failN 5) ⟨circuit_breaker, 0, []⟩ =
      (Except.error DbError.circuitOpen,
        ⟨⟨5, 300, 5, some 315⟩, 31, [1, 2, 4, 8, 16]⟩) :=
  ⟨by decide, rfl⟩

/-- C1 amended: with a fresh breaker, n transient failures followed by a
success make the wrapped call return the success result with failure_count 0,
provided the n failures do not reach the breaker threshold: for engine
creation (max_retries 5, threshold 5) this holds for every n ≤ 4 but not for
n = 5; for schema initialization and scoped-session creation (max_retries 3)
it holds for every n ≤ max_retries. -/
theorem C1_amended_success_resets (t0 n : Nat) :
    (n ≤ 4 →
      (create_db_engine (failN n) ⟨circuit_breaker, t0, []⟩).1 = Except.ok () ∧
      ((create_db_engine (failN n) ⟨circuit_breaker, t0, []⟩).2).cb.failure_count = 0) ∧
    (n ≤ 3 →
      (init_db (failN n) ⟨circuit_breaker, t0, []⟩).1 = Except.ok () ∧
      ((init_db (failN n) ⟨circuit_breaker, t0, []⟩).2).cb.failure_count = 0) ∧
    (n ≤ 3 →
      (get_session (failN n) (Except.ok ()) (Except.ok ())
          ⟨circuit_breaker, t0, []⟩).1 = Except.ok () ∧
      ((get_session (failN n) (Except.ok ()) (Except.ok ())
          ⟨circuit_breaker, t0, []⟩).2).1.cb.failure_count = 0) := by
  refine ⟨fun h => ?_, fun h => ?_, fun h => ?_⟩ <;> interval_cases n <;> exact ⟨rfl, rfl⟩

theorem C1_amended_witness :
    ((create_db_engine (failN 3) ⟨circuit_breaker, 0, []⟩).1 = Except.ok () ∧
      ((create_db_engine (failN 3) ⟨circuit_breaker, 0, []⟩).2).cb.failure_count = 0) ∧
    ((init_db (failN 3) ⟨circuit_breaker, 0, []⟩).1 = Except.ok () ∧
      ((init_db (failN 3) ⟨circuit_breaker, 0, []⟩).2).cb.failure_count = 0) ∧
    ((get_session (failN 3) (Except.ok ()) (Except.ok ())
        ⟨circuit_breaker, 0, []⟩).1 = Except.ok () ∧
      ((get_session (failN 3) (Except.ok ()) (Except.ok ())
          ⟨circuit_breaker, 0, []⟩).2).1.cb.failure_count = 0) :=
  ⟨(C1_amended_success_resets 0 3).1 (by decide),
   (C1_amended_success_resets 0 3).2.1 (by decide),
   (C1_amended_success_resets 0 3).2.2 (by decide)⟩

/-- C5: when is_open reports true at entry, each guarded operation raises the
circuit-open error at once: the result does not depend on the underlying
action (which would succeed), the clock and sleep trace are unchanged (no
backoff), the breaker is untouched, and for the scoped session no session is
created, committed, rolled back or closed. -/
theorem C5_circuit_open_fail_fast (cb : CircuitBreaker) (t0 : Nat)
    (act : Nat → Except ActErr Unit) (body commit : Except ActErr Unit)
    (h : (cb.is_open t0).1 = true) :
    create_db_engine act ⟨cb, t0, []⟩ =
      (Except.error DbError.circuitOpen, ⟨cb, t0, []⟩) ∧
    init_db act ⟨cb, t0, []⟩ =
      (Except.error DbError.circuitOpen, ⟨cb, t0, []⟩) ∧
    get_session act body commit ⟨cb, t0, []⟩ =
      (Except.error DbError.circuitOpen, ⟨cb, t0, []⟩, ⟨false, 0, 0, 0, 0, 0⟩) := by
  have hopen : cb.is_open t0 = (true, cb) := by
    unfold CircuitBreaker.is_open at h ⊢
    rcases hr : cb.reset_time with _ | t
    · rw [hr] at h
      simp at h
    · rw [hr] at h
      by_cases hc : t0 < t
      · simp [hc]
      · simp [hc] at h
  have hbody : createEngineBody act 0 ⟨cb, t0, []⟩ =
      (Except.error DbError.circuitOpen, ⟨cb, t0, []⟩) := by
    simp [createEngineBody, hopen]
  have hbody2 : initDbBody act 0 ⟨cb, t0, []⟩ =
      (Except.error DbError.circuitOpen, ⟨cb, t0, []⟩) := by
    simp [initDbBody, hopen]
  refine ⟨?_, ?_, ?_⟩
  · exact retryAux_nontransient 5 1 5 0 0 (createEngineBody act) _ _ _ hbody rfl
  · exact retryAux_nontransient 3 1 3 0 0 (initDbBody act) _ _ _ hbody2 rfl
  · simp [get_session, hopen]

theorem C5_witness :
    create_db_engine (fun _ => Except.ok ()) ⟨⟨5, 300, 5, some 315⟩, 31, []⟩ =
      (Except.error DbError.circuitOpen, ⟨⟨5, 300, 5, some 315⟩, 31, []⟩) ∧
    init_db (fun _ => Except.ok ()) ⟨⟨5, 300, 5, some 315⟩, 31, []⟩ =
      (Except.error DbError.circuitOpen, ⟨⟨5, 300, 5, some 315⟩, 31, []⟩) ∧
    get_session (fun _ => Except.ok ()) (Except.ok ()) (Except.ok ())
        ⟨⟨5, 300, 5, some 315⟩, 31, []⟩ =
      (Except.error DbError.circuitOpen, ⟨⟨5, 300, 5, some 315⟩, 31, []⟩,
        ⟨false, 0, 0, 0, 0, 0⟩) :=
  C5_circuit_open_fail_fast ⟨5, 300, 5, some 315⟩ 31 (fun _ => Except.ok ())
    (Except.ok ()) (Except.ok ()) (by decide)

/-- C4: in every scoped-session use, whenever a session object was created it
is closed exactly once on every exit path; a scope body and commit that both
succeed yield the success result with one commit and one success report
(failure_count 0, reset_time cleared); and an error escaping the body, or a
failing commit after a successful body, yields exactly one rollback and one
failure report, with the error propagating to the caller. -/
theorem C4_scoped_session (mk : Nat → Except ActErr Unit)
    (body commit : Except ActErr Unit) (st : DbState) (res : Except DbError Unit)
    (st1 : DbState) (tr : SessionTrace)
    (h : get_session mk body commit st = (res, st1, tr)) :
    (tr.sessionCreated = true → tr.closes = 1) ∧
    (tr.sessionCreated = true → body = Except.ok () → commit = Except.ok () →
      res = Except.ok () ∧ tr.commits = 1 ∧ tr.successReports = 1 ∧
      st1.cb.failure_count = 0 ∧ st1.cb.reset_time = none) ∧
    ((∃ e, body = Except.error e) → tr.sessionCreated = true →
      tr.rollbacks = 1 ∧ tr.failureReports = 1 ∧
      ∃ e, res = Except.error (ActErr.toDb e)) ∧
    (body = Except.ok () → (∃ e, commit = Except.error e) → tr.sessionCreated = true →
      tr.rollbacks = 1 ∧ tr.failureReports = 1 ∧
      ∃ e, res = Except.error (ActErr.toDb e)) := by
  unfold get_session at h
  rcases hop : st.cb.is_open st.now with ⟨b, cb2⟩
  rw [hop] at h
  cases b
  · rcases hretry : retry_with_backoff 3 1 (mkSessionOp mk) ⟨cb2, st.now, st.sleeps⟩
      with ⟨rr, st2⟩
    simp only [ite_false, ite_true, Bool.false_eq_true, if_false] at h
    rw [hretry] at h
    cases rr with
    | error e =>
      injection h with h1 h'
      injection h' with h2 h3
      subst h1; subst h2; subst h3
      simp
    | ok u =>
      cases body with
      | error e =>
        injection h with h1 h'
        injection h' with h2 h3
        subst h1; subst h2; subst h3
        refine ⟨fun _ => rfl, ?_, ?_, ?_⟩
        · intro _ hb
          cases hb
        · intro _ _
          exact ⟨rfl, rfl, e, rfl⟩
        · intro hb
          cases hb
      | ok bu =>
        cases commit with
        | ok cu =>
          injection h with h1 h'
          injection h' with h2 h3
          subst h1; subst h2; subst h3
          refine ⟨fun _ => rfl, ?_, ?_, ?_⟩
          · intro _ _ _
            exact ⟨rfl, rfl, rfl, rfl, rfl⟩
          · intro hb
            obtain ⟨e, he⟩ := hb
            cases he
          · intro _ hc
            obtain ⟨e, he⟩ := hc
            cases he
        | error e =>
          injection h with h1 h'
          injection h' with h2 h3
          subst h1; subst h2; subst h3
          refine ⟨fun _ => rfl, ?_, ?_, ?_⟩
          · intro _ _ hc
            cases hc
          · intro hb
            obtain ⟨e2, he⟩ := hb
            cases he
          · intro _ _ _
            exact ⟨rfl, rfl, e, rfl⟩
  · simp only [ite_true, ite_false] at h
    injection h with h1 h'
    injection h' with h2 h3
    subst h1; subst h2; subst h3
    simp

theorem C4_witness :
    (Except.ok () : Except DbError Unit) = Except.ok () ∧
    (⟨true, 1, 0, 1, 1, 0⟩ : SessionTrace).commits = 1 ∧
    (⟨true, 1, 0, 1, 1, 0⟩ : SessionTrace).successReports = 1 ∧
    (⟨⟨5, 300, 0, none⟩, 7, [1, 2, 4]⟩ : DbState).cb.failure_count = 0 ∧
    (⟨⟨5, 300, 0, none⟩, 7, [1, 2, 4]⟩ : DbState).cb.reset_time = none :=
  (C4_scoped_session (failN 3) (Except.ok ()) (Except.ok ()) ⟨circuit_breaker, 0, []⟩
      (Except.ok ()) ⟨⟨5, 300, 0, none⟩, 7, [1, 2, 4]⟩ ⟨true, 1, 0, 1, 1, 0⟩
      (by decide)).2.1 rfl rfl rfl

/-- C7: over a run in which the operation fails transiently on the first n
invocations (n ≤ max_retries) and then succeeds, the k-th backoff sleep
equals initial_backoff * 2 ^ (k-1) for k = 1..n, and over a run that
exhausts all retries the k-th sleep equals initial_backoff * 2 ^ (k-1) for
k = 1..max_retries; the schedule depends only on the attempt index and the
configured initial backoff. -/
theorem C7_backoff_schedule (retries backoff n t0 : Nat) (cb : CircuitBreaker)
    (hn : n ≤ retries) :
    ((retry_with_backoff retries backoff (pureFails n) ⟨cb, t0, []⟩).1 =
        Except.ok () ∧
      (retry_with_backoff retries backoff (pureFails n) ⟨cb, t0, []⟩).2.sleeps =
        (List.range n).map (fun k => backoff * 2 ^ k)) ∧
    (retry_with_backoff retries backoff pureAlwaysFails ⟨cb, t0, []⟩).2.sleeps =
      (List.range retries).map (fun k => backoff * 2 ^ k) := by
  have h1 := retryAux_pureFails_run retries backoff n n (retries + 1) 0 0
    ⟨cb, t0, []⟩ (by omega) (by omega) (by omega)
  have h2 := retryAux_alwaysFails retries backoff (retries + 1) 0 0
    ⟨cb, t0, []⟩ (by omega)
  have hb := backoffList_eq_range backoff
  refine ⟨⟨?_, ?_⟩, ?_⟩
  · rw [retry_with_backoff, h1]
  · rw [retry_with_backoff, h1]
    simp [hb n 0]
  · rw [retry_with_backoff, h2]
    simp [hb retries 0]

theorem C7_witness :
    ((retry_with_backoff 5 1 (pureFails 5) ⟨circuit_breaker, 0, []⟩).1 =
        Except.ok () ∧
      (retry_with_backoff 5 1 (pureFails 5) ⟨circuit_breaker, 0, []⟩).2.sleeps =
        (List.range 5).map (fun k => 1 * 2 ^ k)) ∧
    (retry_with_backoff 5 1 pureAlwaysFails ⟨circuit_breaker, 0, []⟩).2.sleeps =
      (List.range 5).map (fun k => 1 * 2 ^ k) :=
  C7_backoff_schedule 5 1 5 0 circuit_breaker (by decide)

/-- C9: whenever parse_api_response succeeds, the returned ats_score is an
integer in [0, 100]; it is 0 whenever the numeric value the API returned is
below 0 and 100 whenever it is above 100, whatever number or numeric string
the API produced; and whenever any of the keys ats_score, feedback or
improvements is missing, parse_api_response returns an error instead. -/
theorem C9_score_clamped (c : ApiContent) :
    (∀ r, parse_api_response c = Except.ok r →
      0 ≤ r ∧ r ≤ 100 ∧
      ∀ v q, c.ats_score = some v → v.toNum = some q →
        (q < 0 → r = 0) ∧ ((100 : ℚ) < q → r = 100)) ∧
    ((c.ats_score = none ∨ c.has_feedback = false ∨ c.has_improvements = false) →
      ∃ msg, parse_api_response c = Except.error msg) := by
  constructor
  · intro r h
    unfold parse_api_response at h
    by_cases hg : (c.ats_score.isSome && c.has_feedback && c.has_improvements) = true
    · rw [if_pos hg] at h
      rcases hs : c.ats_score with _ | v
      · rw [hs] at hg
        simp at hg
      · simp only [hs] at h
        rcases hv : v.toNum with _ | q
        · simp only [hv] at h
          simp at h
        · simp only [hv] at h
          injection h with hr
          subst hr
          refine ⟨le_max_left _ _, max_le (by norm_num) (min_le_left _ _), ?_⟩
          intro v2 q2 hv2 hq2
          injection hv2 with hv2e
          subst hv2e
          rw [hv] at hq2
          injection hq2 with hq2e
          subst hq2e
          constructor
          · intro hneg
            have ht : truncToInt q ≤ 0 := by
              unfold truncToInt
              rw [if_pos hneg]
              refine Int.ceil_le.mpr ?_
              push_cast
              linarith
            have hmin : min 100 (truncToInt q) ≤ 0 :=
              le_trans (min_le_right _ _) ht
            unfold clampScore
            exact max_eq_left hmin
          · intro hbig
            have hq0 : ¬ q < 0 := by linarith
            have ht : (100 : ℤ) ≤ truncToInt q := by
              unfold truncToInt
              rw [if_neg hq0]
              refine Int.le_floor.mpr ?_
              push_cast
              linarith
            unfold clampScore
            rw [min_eq_left ht]
            norm_num
    · rw [if_neg hg] at h
      cases h
  · intro hm
    unfold parse_api_response
    have hg : (c.ats_score.isSome && c.has_feedback && c.has_improvements) = false := by
      rcases hm with h1 | h1 | h1 <;> simp [h1]
    rw [if_neg (by simp [hg])]
    exact ⟨_, rfl⟩

theorem C9_witness :
    ((0 : ℤ) ≤ 0 ∧ (0 : ℤ) ≤ 100 ∧
      ∀ v q,
        (⟨some (ScoreVal.numeric (-5)), true, true⟩ : ApiContent).ats_score = some v →
        v.toNum = some q →
        (q < 0 → (0 : ℤ) = 0) ∧ ((100 : ℚ) < q → (0 : ℤ) = 100)) ∧
    ∃ msg, parse_api_response ⟨none, true, true⟩ = Except.error msg :=
  ⟨(C9_score_clamped ⟨some (ScoreVal.numeric (-5)), true, true⟩).1 0 (by decide),
   (C9_score_clamped ⟨none, true, true⟩).2 (Or.inl rfl)⟩

/-- C10: validate_file_extension accepts exactly the filenames whose
lowercased last dot-separated segment is pdf, doc or docx, rejecting all
others with HTTP 400, while extract_text_from_file raises HTTP 400 for every
extension other than pdf; hence an upload whose filename has extension doc
or docx passes validation yet always fails with HTTP 400 at the extraction
step. -/
theorem C10_doc_docx_validated_then_rejected (filename : String)
    (pdfResult : Except Nat String) :
    (validate_file_extension filename = Except.ok (extOf filename) ↔
      extOf filename ∈ allowedExtensions) ∧
    (validate_file_extension filename = Except.error 400 ↔
      extOf filename ∉ allowedExtensions) ∧
    (∀ ext, ext ≠ "pdf" → extract_text_from_file pdfResult ext = Except.error 400) ∧
    ((extOf filename = "doc" ∨ extOf filename = "docx") →
      validate_file_extension filename = Except.ok (extOf filename) ∧
      upload_pipeline pdfResult filename = Except.error 400) := by
  refine ⟨?_, ?_, ?_, ?_⟩
  · by_cases hm : extOf filename ∈ allowedExtensions <;>
      simp [validate_file_extension, hm]
  · by_cases hm : extOf filename ∈ allowedExtensions <;>
      simp [validate_file_extension, hm]
  · intro ext hne
    simp [extract_text_from_file, hne]
  · intro hdoc
    have hm : extOf filename ∈ allowedExtensions := by
      rcases hdoc with hd | hd <;> rw [hd] <;> simp [allowedExtensions]
    have hv : validate_file_extension filename = Except.ok (extOf filename) := by
      simp [validate_file_extension, hm]
    refine ⟨hv, ?_⟩
    unfold upload_pipeline
    rw [hv]
    have hne : extOf filename ≠ "pdf" := by
      rcases hdoc with hd | hd <;> rw [hd] <;> decide
    simp [extract_text_from_file, hne]

theorem C10_witness :
    validate_file_extension "resume.DocX" = Except.ok (extOf "resume.DocX") ∧
    upload_pipeline (Except.ok "resume text") "resume.DocX" = Except.error 400 :=
  (C10_doc_docx_validated_then_rejected "resume.DocX" (Except.ok "resume text")).2.2.2
    (Or.inr (by decide))

end ATS
